import Mathlib

/-!
# Verification of the `HyperlocalAQISystem` component (backend/utils/hyperlocal_system.py)

Shallow embedding of the hyperlocal AQI interpolation and safe-route generation
logic.  Conventions:

* Python floats are modelled as exact rationals (`ℚ`); Python's `round(x, n)`
  (round-half-to-even) is modelled by `pyRound`, `int(x)` (truncation toward
  zero) by `pyInt`.
* The geodesic helper `_calculate_distance` (a haversine over floats, a
  transcendental real-valued function) is abstracted as a parameter
  `Geom.dist`; every theorem quantifies over the distance function, and
  concrete evaluations instantiate it with explicit rational-valued tables.
* The wall-clock and the `numpy.random` draws consumed by
  `_calculate_micro_environmental_factors` are passed explicitly: `hour`
  stands for `datetime.now().hour`, and `MicroDraws` carries the four
  `np.random.uniform` outcomes.
* Python raising an exception is modelled by `Except Unit`: the only reachable
  exception in this component is the `ZeroDivisionError` in
  `_generate_metro_route`.
* The CPython attribute write `station.distance = distance` performed by
  `_find_nearby_stations` is modelled by an `Option ℚ` field `distance` on
  `Location` (absent = `none` at construction) together with explicit state
  passing of the station registry.
-/

namespace Hyperlocal

/-- Python `round`-style round-half-to-even of a rational to an integer
(model of CPython float rounding, idealised over `ℚ`). -/
def roundHalfEven (q : ℚ) : ℤ :=
  if q - ⌊q⌋ < 1/2 then ⌊q⌋
  else if 1/2 < q - ⌊q⌋ then ⌊q⌋ + 1
  else if ⌊q⌋ % 2 = 0 then ⌊q⌋ else ⌊q⌋ + 1

/-- Python `round(q, n)`: round to `n` decimal digits, ties to even. -/
def pyRound (q : ℚ) (n : ℕ) : ℚ :=
  (roundHalfEven (q * (10 : ℚ) ^ n) : ℚ) / (10 : ℚ) ^ n

/-- Python `int(q)`: truncation toward zero. -/
def pyInt (q : ℚ) : ℤ :=
  if 0 ≤ q then ⌊q⌋ else ⌈q⌉

/-- The `Location` dataclass.  `distance` models the extra attribute that
`_find_nearby_stations` assigns dynamically (`station.distance = distance`);
it is `none` as constructed in `__init__` and the `timestamp` field
(`datetime.now()` in the source) is modelled as an opaque natural number. -/
structure Location where
  latitude : ℚ
  longitude : ℚ
  name : String
  aqi : ℚ
  pollutants : List (String × ℚ)
  timestamp : ℕ
  distance : Option ℚ
deriving Repr, DecidableEq

/-- The `RouteSegment` dataclass. -/
structure RouteSegment where
  start_lat : ℚ
  start_lon : ℚ
  end_lat : ℚ
  end_lon : ℚ
  aqi : ℚ
  duration : ℤ
  distance : ℚ
  route_type : String
deriving Repr, DecidableEq

/-- The `SafeRoute` dataclass. -/
structure SafeRoute where
  segments : List RouteSegment
  total_duration : ℤ
  total_distance : ℚ
  avg_aqi : ℚ
  max_aqi : ℚ
  pollution_exposure : ℚ
  route_score : ℚ
deriving Repr, DecidableEq

/-- Table `self.monitoring_stations` as built in `HyperlocalAQISystem.__init__`
(insertion order of the Python dict preserved). -/
def monitoring_stations : List (String × Location) :=
  [ ("central_delhi", ⟨28.6139, 77.2090, "Central Delhi", 287,
      [("pm25", 112.5), ("pm10", 195.3), ("no2", 45.6)], 0, none⟩),
    ("east_delhi", ⟨28.6358, 77.3145, "East Delhi", 245,
      [("pm25", 98.7), ("pm10", 176.4), ("no2", 38.7)], 0, none⟩),
    ("west_delhi", ⟨28.6139, 77.1025, "West Delhi", 312,
      [("pm25", 125.8), ("pm10", 210.6), ("no2", 52.3)], 0, none⟩),
    ("south_delhi", ⟨28.4595, 77.0266, "South Delhi", 178,
      [("pm25", 78.3), ("pm10", 145.2), ("no2", 29.4)], 0, none⟩),
    ("north_delhi", ⟨28.7041, 77.1025, "North Delhi", 95,
      [("pm25", 42.6), ("pm10", 89.7), ("no2", 18.9)], 0, none⟩),
    ("ito_junction", ⟨28.6315, 77.2167, "ITO Junction", 325,
      [("pm25", 134.7), ("pm10", 201.5), ("no2", 54.3)], 0, none⟩),
    ("cp_metro", ⟨28.6315, 77.2167, "CP Metro", 267,
      [("pm25", 105.6), ("pm10", 182.9), ("no2", 47.2)], 0, none⟩),
    ("india_gate", ⟨28.6129, 77.2295, "India Gate", 278,
      [("pm25", 112.5), ("pm10", 189.3), ("no2", 49.7)], 0, none⟩),
    ("mayapuri", ⟨28.6289, 77.2065, "Mayapuri", 342,
      [("pm25", 156.8), ("pm10", 234.6), ("no2", 35.4)], 0, none⟩),
    ("okhla", ⟨28.5314, 77.2728, "Okhla", 298,
      [("pm25", 142.3), ("pm10", 218.7), ("no2", 38.2)], 0, none⟩) ]

/-- Table `self.metro_stations` as built in `__init__`. -/
def metro_stations : List (String × Location) :=
  [ ("rajiv_chowk", ⟨28.6315, 77.2167, "Rajiv Chowk", 260, [], 0, none⟩),
    ("central_secretariat", ⟨28.6129, 77.2081, "Central Secretariat", 270, [], 0, none⟩),
    ("india_gate", ⟨28.6129, 77.2295, "India Gate", 278, [], 0, none⟩),
    ("connaught_place", ⟨28.6315, 77.2167, "Connaught Place", 250, [], 0, none⟩),
    ("karol_bagh", ⟨28.6514, 77.1909, "Karol Bagh", 290, [], 0, none⟩),
    ("new_delhi", ⟨28.6439, 77.2190, "New Delhi", 280, [], 0, none⟩),
    ("old_delhi", ⟨28.6562, 77.2410, "Old Delhi", 320, [], 0, none⟩) ]

/-- Abstraction of `_calculate_distance(lat1, lon1, lat2, lon2)`: the source
computes a haversine distance over floats; we model it as an arbitrary
rational-valued function of the four coordinates. -/
structure Geom where
  dist : ℚ → ℚ → ℚ → ℚ → ℚ

/-- Stable insertion of `a` into `l`: `a` is placed before the first element
`b` with `le a b` (so among key-equal elements, the inserted—originally
later—element stays last of the already placed ones and earlier than later
inserts; see `stable_sort`). -/
def insertS {α : Type} (le : α → α → Bool) (a : α) : List α → List α
  | [] => [a]
  | b :: t => if le a b then a :: b :: t else b :: insertS le a t

/-- Model of Python's stable `sorted` / `list.sort(key=…)`: a stable
insertion sort.  For a comparator of the form `key x ≤ key y` (a total
preorder) the stable sort of a list is unique, so this agrees with CPython's
timsort. -/
def stable_sort {α : Type} (le : α → α → Bool) : List α → List α
  | [] => []
  | a :: t => insertS le a (stable_sort le t)

/-- Model of `_find_nearby_stations(lat, lon, radius_km)`.  Returns the
distance-sorted list of in-radius stations together with the updated
registry: the Python loop executes `station.distance = distance` on every
in-radius entry of `self.monitoring_stations`, mutating the shared registry
objects in place. -/
def find_nearby_stations (g : Geom) (lat lon radius : ℚ)
    (registry : List (String × Location)) :
    List Location × List (String × Location) :=
  let pairs := registry.map (fun p =>
    (p, g.dist lat lon p.2.latitude p.2.longitude))
  let registry' := pairs.map (fun q =>
    if q.2 ≤ radius then (q.1.1, { q.1.2 with distance := some q.2 }) else q.1)
  let nearby := (pairs.filter (fun q => q.2 ≤ radius)).map
    (fun q => { q.1.2 with distance := some q.2 })
  (stable_sort (fun a b => a.distance.getD 0 ≤ b.distance.getD 0) nearby, registry')

/-- Result shape of `_interpolate_aqi` / `_adjust_aqi_for_local_factors`
(the `{'aqi': …, 'pollutants': …, 'confidence': …}` dict). -/
structure InterpResult where
  aqi : ℚ
  pollutants : List (String × ℚ)
  confidence : ℚ
deriving Repr, DecidableEq

/-- Update `weighted_pollutants[pollutant] += value * weight` over a Python dict,
modelled on an association list preserving first-insertion key order. -/
def add_weighted (acc : List (String × ℚ)) (key : String) (v : ℚ) :
    List (String × ℚ) :=
  if acc.any (fun q => q.1 = key) then
    acc.map (fun q => if q.1 = key then (q.1, q.2 + v) else q)
  else acc ++ [(key, v)]

/-- Model of `_interpolate_aqi(lat, lon, nearby_stations)`.  The station `distance`
attribute read here is the one just written by `_find_nearby_stations`
(always present on members of `nearby`). -/
def interpolate_aqi (nearby : List Location) : InterpResult :=
  if nearby = [] then ⟨200, [], 1/2⟩
  else
    let acc := nearby.foldl
      (fun (acc : ℚ × ℚ × List (String × ℚ)) (st : Location) =>
        let w : ℚ := 1 / (st.distance.getD 0 + 1/10)
        (acc.1 + w, acc.2.1 + st.aqi * w,
          st.pollutants.foldl
            (fun ps pv => add_weighted ps pv.1 (pv.2 * w)) acc.2.2))
      (0, 0, [])
    let total_weight := acc.1
    let interpolated_aqi := acc.2.1 / total_weight
    let interpolated_pollutants := acc.2.2.map (fun p => (p.1, p.2 / total_weight))
    let avg_distance :=
      (nearby.map (fun st => st.distance.getD 0)).sum / (nearby.length : ℚ)
    let confidence :=
      max (3/10) (min (19/20) (1 - avg_distance / 2 + (nearby.length : ℚ) * (1/10)))
    ⟨pyRound interpolated_aqi 1,
      interpolated_pollutants.map (fun p => (p.1, pyRound p.2 1)),
      pyRound confidence 2⟩

/-- The four `np.random.uniform` draws consumed by
`_calculate_micro_environmental_factors`. -/
structure MicroDraws where
  traffic : ℚ
  green_space : ℚ
  industrial : ℚ
  construction : ℚ
deriving Repr, DecidableEq

/-- The `factors` dict produced by `_calculate_micro_environmental_factors`. -/
structure MicroFactors where
  time_factor : ℚ
  traffic_factor : ℚ
  green_space_factor : ℚ
  industrial_factor : ℚ
  construction_factor : ℚ
deriving Repr, DecidableEq

/-- The time-of-day branch of `_calculate_micro_environmental_factors`
(`datetime.now().hour` passed explicitly). -/
def time_of_day_factor (hour : ℕ) : ℚ :=
  if (6 ≤ hour ∧ hour ≤ 9) ∨ (17 ≤ hour ∧ hour ≤ 20) then 12/10
  else if 22 ≤ hour ∨ hour ≤ 5 then 8/10
  else 1

/-- Model of `_calculate_micro_environmental_factors(lat, lon)`; the coordinates are
unused by the source body, the randomness is passed in as `draws`. -/
def calculate_micro_environmental_factors (hour : ℕ) (draws : MicroDraws) :
    MicroFactors :=
  ⟨time_of_day_factor hour, draws.traffic, draws.green_space,
    draws.industrial, draws.construction⟩

/-- Mean `np.mean(adjustment_factors)` over the five factors collected by
`_adjust_aqi_for_local_factors`. -/
def combined_factor (m : MicroFactors) : ℚ :=
  (m.time_factor + m.traffic_factor + m.green_space_factor +
    m.industrial_factor + m.construction_factor) / 5

/-- Model of `_adjust_aqi_for_local_factors(base_aqi, micro_factors)`: the AQI is
scaled and clamped with `max(0, min(500, …))`; the pollutants are scaled
(without any clamp); the confidence is multiplied by `0.95`. -/
def adjust_aqi_for_local_factors (base : InterpResult) (m : MicroFactors) :
    InterpResult :=
  let cf := combined_factor m
  let adjusted_aqi := max 0 (min 500 (base.aqi * cf))
  ⟨pyRound adjusted_aqi 1,
    base.pollutants.map (fun p => (p.1, pyRound (p.2 * cf) 1)),
    pyRound (base.confidence * (19/20)) 2⟩

/-- Model of `_get_aqi_category(aqi)`. -/
def get_aqi_category (aqi : ℚ) : String :=
  if aqi ≤ 50 then "Good"
  else if aqi ≤ 100 then "Satisfactory"
  else if aqi ≤ 200 then "Moderate"
  else if aqi ≤ 300 then "Poor"
  else if aqi ≤ 400 then "Very Poor"
  else "Severe"

/-- Model of `_get_health_recommendations(aqi)`. -/
def get_health_recommendations (aqi : ℚ) : List String :=
  if aqi ≤ 50 then ["Enjoy outdoor activities", "Good air quality for everyone"]
  else if aqi ≤ 100 then ["Sensitive groups may experience minor breathing discomfort"]
  else if aqi ≤ 200 then ["Sensitive groups should limit outdoor activities", "Use N95 masks if needed"]
  else if aqi ≤ 300 then ["Avoid outdoor activities", "Keep windows closed", "Use air purifiers"]
  else if aqi ≤ 400 then ["Stay indoors", "Use N95 masks", "Run air purifiers continuously"]
  else ["Emergency conditions - avoid all outdoor activities", "Use HEPA air purifiers"]

/-- The dict returned by `get_hyperlocal_aqi`.  Both return shapes of the
source (the fallback dict of `_get_city_average_aqi` and the full
interpolation dict) are modelled in one record with optional fields; a
field is `none` exactly when the corresponding key is absent from the
returned Python dict.  The `timestamp` value (`datetime.now().isoformat()`)
is opaque. -/
structure HyperResult where
  latitude : Option ℚ
  longitude : Option ℚ
  aqi : ℚ
  category : String
  pollutants : List (String × ℚ)
  confidence : ℚ
  nearby_stations : Option (List (String × ℚ × ℚ))
  micro_factors : Option MicroFactors
  health_recommendations : Option (List String)
  timestamp : Option String
  note : Option String
deriving Repr, DecidableEq

/-- Key list of the dict modelled by a `HyperResult`, in the insertion order
used by the source (`latitude … timestamp` for the interpolation dict,
`aqi, category, pollutants, confidence, note` for the fallback dict). -/
def result_keys (r : HyperResult) : List String :=
  (if r.latitude.isSome then ["latitude"] else []) ++
  (if r.longitude.isSome then ["longitude"] else []) ++
  ["aqi", "category", "pollutants", "confidence"] ++
  (if r.nearby_stations.isSome then ["nearby_stations"] else []) ++
  (if r.micro_factors.isSome then ["micro_factors"] else []) ++
  (if r.health_recommendations.isSome then ["health_recommendations"] else []) ++
  (if r.timestamp.isSome then ["timestamp"] else []) ++
  (if r.note.isSome then ["note"] else [])

/-- Model of `_get_city_average_aqi()` over a registry (`self.monitoring_stations`
in the source). -/
def get_city_average_aqi (registry : List (String × Location)) : HyperResult :=
  let avg_aqi := (registry.map (fun p => p.2.aqi)).sum / (registry.length : ℚ)
  { latitude := none, longitude := none,
    aqi := pyRound avg_aqi 1,
    category := get_aqi_category avg_aqi,
    pollutants := [("pm25", avg_aqi / (5/2)), ("pm10", avg_aqi / (6/5))],
    confidence := 6/10,
    nearby_stations := none, micro_factors := none,
    health_recommendations := none, timestamp := none,
    note := some "City average - less precise than hyperlocal data" }

/-- Model of `get_hyperlocal_aqi(latitude, longitude, radius_km)`.  Returns the
response dict together with the (possibly mutated) station registry. -/
def get_hyperlocal_aqi (g : Geom) (hour : ℕ) (draws : MicroDraws)
    (lat lon radius : ℚ) (registry : List (String × Location)) :
    HyperResult × List (String × Location) :=
  let fnr := find_nearby_stations g lat lon radius registry
  let nearby := fnr.1
  if nearby = [] then (get_city_average_aqi fnr.2, fnr.2)
  else
    let interpolated := interpolate_aqi nearby
    let micro := calculate_micro_environmental_factors hour draws
    let adjusted := adjust_aqi_for_local_factors interpolated micro
    ({ latitude := some lat, longitude := some lon,
        aqi := adjusted.aqi,
        category := get_aqi_category adjusted.aqi,
        pollutants := adjusted.pollutants,
        confidence := adjusted.confidence,
        nearby_stations := some (nearby.map (fun st =>
          (st.name, st.distance.getD 0, st.aqi))),
        micro_factors := some micro,
        health_recommendations := some (get_health_recommendations adjusted.aqi),
        timestamp := some "",
        note := none }, fnr.2)

/-- Model of `_generate_direct_route`: always produces a route; the AQI estimate comes
from a `get_hyperlocal_aqi` call at the midpoint (default radius 2.0) against
the global registry. -/
def generate_direct_route (g : Geom) (hour : ℕ) (draws : MicroDraws)
    (start_lat start_lon end_lat end_lon : ℚ) : SafeRoute :=
  let distance := g.dist start_lat start_lon end_lat end_lon
  let duration := pyInt (distance * 2)
  let mid_lat := (start_lat + end_lat) / 2
  let mid_lon := (start_lon + end_lon) / 2
  let mid_aqi_data :=
    (get_hyperlocal_aqi g hour draws mid_lat mid_lon 2 monitoring_stations).1
  let avg_aqi := mid_aqi_data.aqi
  let segment : RouteSegment :=
    ⟨start_lat, start_lon, end_lat, end_lon, avg_aqi, duration, distance, "road"⟩
  let pollution_exposure := avg_aqi * ((duration : ℚ) / 60)
  let route_score := pollution_exposure + (duration : ℚ) * (1/10)
  ⟨[segment], duration, distance, avg_aqi, avg_aqi, pollution_exposure, route_score⟩

/-- Loop body of `_find_nearest_metro_station`: the accumulator is the pair
`(nearest_station, min_distance)` (`none` standing for
`min_distance = inf, nearest_station = None`); a station is taken when
`distance < min_distance and distance < 2.0`. -/
def metro_scan_step (g : Geom) (lat lon : ℚ) (acc : Option (Location × ℚ))
    (p : String × Location) : Option (Location × ℚ) :=
  let d := g.dist lat lon p.2.latitude p.2.longitude
  match acc with
  | none => if d < 2 then some (p.2, d) else none
  | some (st, md) => if d < md ∧ d < 2 then some (p.2, d) else some (st, md)

/-- Model of `_find_nearest_metro_station(lat, lon)`: linear scan keeping the closest
station strictly closer than 2 km. -/
def find_nearest_metro_station (g : Geom) (lat lon : ℚ) : Option Location :=
  (metro_stations.foldl (metro_scan_step g lat lon) none).map Prod.fst

/-- Model of `_generate_metro_route`: `Except.error ()` models the `ZeroDivisionError`
raised by `avg_aqi = … / total_duration` when the computed total duration is
zero; `Except.ok none` models the `return None` when either endpoint has no
metro station within 2 km. -/
def generate_metro_route (g : Geom)
    (start_lat start_lon end_lat end_lon : ℚ) :
    Except Unit (Option SafeRoute) :=
  match find_nearest_metro_station g start_lat start_lon,
        find_nearest_metro_station g end_lat end_lon with
  | some start_station, some end_station =>
    let walk_to_start := pyInt
      (g.dist start_lat start_lon start_station.latitude start_station.longitude * 10)
    let walk_from_end := pyInt
      (g.dist end_station.latitude end_station.longitude end_lat end_lon * 10)
    let metro_distance := g.dist start_station.latitude start_station.longitude
      end_station.latitude end_station.longitude
    let metro_time := pyInt (metro_distance * (3/2))
    let total_duration := walk_to_start + metro_time + walk_from_end
    if total_duration = 0 then .error () else
    let metro_aqi : ℚ := 180
    let walking_aqi : ℚ := 250
    let avg_aqi := (metro_aqi * metro_time + walking_aqi * (walk_to_start + walk_from_end)) /
      (total_duration : ℚ)
    let total_distance := ((walk_to_start : ℚ) + (walk_from_end : ℚ)) / 10 + metro_distance
    let segments : List RouteSegment :=
      [ ⟨start_lat, start_lon, start_station.latitude, start_station.longitude,
          walking_aqi, walk_to_start, (walk_to_start : ℚ) / 10, "walking"⟩,
        ⟨start_station.latitude, start_station.longitude,
          end_station.latitude, end_station.longitude,
          metro_aqi, metro_time, metro_distance, "metro"⟩,
        ⟨end_station.latitude, end_station.longitude, end_lat, end_lon,
          walking_aqi, walk_from_end, (walk_from_end : ℚ) / 10, "walking"⟩ ]
    let pollution_exposure :=
      (walking_aqi * (walk_to_start + walk_from_end) + metro_aqi * metro_time) / 60
    let route_score := pollution_exposure + (total_duration : ℚ) * (1/20)
    .ok (some ⟨segments, total_duration, total_distance, avg_aqi,
      max walking_aqi metro_aqi, pollution_exposure, route_score⟩)
  | _, _ => .ok none

/-- Model of `_generate_green_route`: declared `Optional` in the source but always
returns a (truthy) `SafeRoute`. -/
def generate_green_route (g : Geom)
    (start_lat start_lon end_lat end_lon : ℚ) : SafeRoute :=
  let distance := g.dist start_lat start_lon end_lat end_lon
  let green_distance := distance * (13/10)
  let duration := pyInt (green_distance * (5/2))
  let green_aqi : ℚ := 150
  let segment : RouteSegment :=
    ⟨start_lat, start_lon, end_lat, end_lon, green_aqi, duration, green_distance, "road"⟩
  let pollution_exposure := green_aqi * ((duration : ℚ) / 60)
  let route_score := pollution_exposure + (duration : ℚ) * (2/25)
  ⟨[segment], duration, green_distance, green_aqi, green_aqi,
    pollution_exposure, route_score⟩

/-- Model of `_generate_cycling_route`: `none` beyond 15 km. -/
def generate_cycling_route (g : Geom)
    (start_lat start_lon end_lat end_lon : ℚ) : Option SafeRoute :=
  let distance := g.dist start_lat start_lon end_lat end_lon
  if 15 < distance then none
  else
    let duration := pyInt (distance * 4)
    let cycling_aqi : ℚ := 200
    let segment : RouteSegment :=
      ⟨start_lat, start_lon, end_lat, end_lon, cycling_aqi, duration, distance, "cycling"⟩
    let pollution_exposure := cycling_aqi * ((duration : ℚ) / 60)
    let route_score := pollution_exposure + (duration : ℚ) * (3/100)
    some ⟨[segment], duration, distance, cycling_aqi, cycling_aqi,
      pollution_exposure, route_score⟩

/-- Model of `_generate_walking_route`: declared `Optional` but always returns a
(truthy) `SafeRoute`; `get_safe_routes` only calls it below 3 km. -/
def generate_walking_route (g : Geom)
    (start_lat start_lon end_lat end_lon : ℚ) : SafeRoute :=
  let distance := g.dist start_lat start_lon end_lat end_lon
  let duration := pyInt (distance * 12)
  let walking_aqi : ℚ := 250
  let segment : RouteSegment :=
    ⟨start_lat, start_lon, end_lat, end_lon, walking_aqi, duration, distance, "walking"⟩
  let pollution_exposure := walking_aqi * ((duration : ℚ) / 60)
  let route_score := pollution_exposure + (duration : ℚ) * (1/50)
  ⟨[segment], duration, distance, walking_aqi, walking_aqi,
    pollution_exposure, route_score⟩

/-- The candidate list built by `get_safe_routes` before sorting, given the
metro-route outcome: direct, metro (if any), green, cycling (if any),
walking (if within 3 km) — in source append order. -/
def candidate_routes (g : Geom) (hour : ℕ) (draws : MicroDraws)
    (start_lat start_lon end_lat end_lon : ℚ) (mopt : Option SafeRoute) :
    List SafeRoute :=
  [generate_direct_route g hour draws start_lat start_lon end_lat end_lon] ++
  mopt.toList ++
  [generate_green_route g start_lat start_lon end_lat end_lon] ++
  (generate_cycling_route g start_lat start_lon end_lat end_lon).toList ++
  (if g.dist start_lat start_lon end_lat end_lon < 3 then
    [generate_walking_route g start_lat start_lon end_lat end_lon] else [])

/-- Model of `get_safe_routes(start_lat, start_lon, end_lat, end_lon, route_type)`.
The `route_type` parameter is accepted and ignored, as in the source.  The
candidates are sorted by `pollution_exposure` (`routes.sort(key=lambda x:
x.pollution_exposure)`, a stable sort) and truncated to five. -/
def get_safe_routes (g : Geom) (hour : ℕ) (draws : MicroDraws)
    (start_lat start_lon end_lat end_lon : ℚ) (route_type : String) :
    Except Unit (List SafeRoute) :=
  match generate_metro_route g start_lat start_lon end_lat end_lon with
  | .error e => .error e
  | .ok mopt =>
    let routes := candidate_routes g hour draws start_lat start_lon end_lat end_lon mopt
    .ok ((stable_sort
      (fun a b => a.pollution_exposure ≤ b.pollution_exposure) routes).take 5)

/-- Boolean check that consecutive elements are ordered by `f` (used to state
sortedness of returned route lists on concrete inputs). -/
def chain_le_by (f : SafeRoute → ℚ) : List SafeRoute → Bool
  | [] => true
  | [_] => true
  | a :: b :: t => (decide (f a ≤ f b)) && chain_le_by f (b :: t)

/-- Whether a route has a segment tagged with the given route type. -/
def has_segment_type (r : SafeRoute) (t : String) : Bool :=
  r.segments.any (fun s => decide (s.route_type = t))

/-- The dataclass-declared fields of a `Location` (everything except the
dynamically written `distance` attribute). -/
def core_view (st : Location) : ℚ × ℚ × String × ℚ × List (String × ℚ) × ℕ :=
  (st.latitude, st.longitude, st.name, st.aqi, st.pollutants, st.timestamp)

/-- The formula C8 asserts for every generated route with per-mode duration
penalty `c`. -/
def route_formula (r : SafeRoute) (c : ℚ) : Prop :=
  r.pollution_exposure = r.avg_aqi * ((r.total_duration : ℚ) / 60) ∧
  r.route_score = r.pollution_exposure + (r.total_duration : ℚ) * c

/-! ## Concrete geometries and inputs used in evaluations

Every concrete geometry below is an explicit rational-valued instantiation of
the abstracted haversine; the scenarios they encode (a station at a given
distance, all stations far away, start and end at the same point, …) are
realisable coordinate configurations. -/

/-- Geometry in which the distance between coordinate-wise equal points is 0
and every other distance is 3 km. -/
def gEq : Geom := ⟨fun lat1 lon1 lat2 lon2 => if lat1 = lat2 ∧ lon1 = lon2 then 0 else 3⟩

/-- Geometry in which every distance is 3 km (every station out of a 2 km
radius, no metro station within 2 km). -/
def gFar : Geom := ⟨fun _ _ _ _ => 3⟩

/-- Geometry with a single monitoring station (Central Delhi) at 1.8 km of the
query point and everything else at 3 km. -/
def gC3 : Geom := ⟨fun _ _ lat2 lon2 =>
  if lat2 = 28.6139 ∧ lon2 = 77.2090 then 9/5 else 3⟩

/-- Geometry for the C1 counterexample: the start/end pair `(0,0) → (0,2)` is
10 km apart, the Central Delhi station is 0.5 km from the route midpoint
`(0,1)`, and everything else (in particular every metro station) is 3 km
away. -/
def gC1 : Geom := ⟨fun lat1 lon1 lat2 lon2 =>
  if lat1 = 0 ∧ lon1 = 0 ∧ lat2 = 0 ∧ lon2 = 2 then 10
  else if (lat1 = 0 ∧ lon1 = 1) ∧ (lat2 = 28.6139 ∧ lon2 = 77.2090) then 1/2
  else 3⟩

/-- Micro-factor draws for the C1 counterexample: with night hour 23 the
combined factor is `343/410`, so the direct route's midpoint AQI becomes
`287 · 343/410 = 240.1`. -/
def dC1 : MicroDraws := ⟨9/10, 7/10, 8/10, 403/410⟩

/-- Unit draws (all four uniform factors equal to 1). -/
def d1111 : MicroDraws := ⟨1, 1, 1, 1⟩

/-- Geometry in which every point is 1 km from the Rajiv Chowk coordinates
(shared by Connaught Place and the ITO/CP monitoring stations) and 3 km from
everything else: both route endpoints get a metro station within 2 km. -/
def gW2 : Geom := ⟨fun _ _ lat2 lon2 =>
  if lat2 = 28.6315 ∧ lon2 = 77.2167 then 1 else 3⟩

/-- The concrete route list returned on the C1-amended witness input
(`gEq`, hour 12, unit draws, `(0,0) → (0,4)`): green, direct, cycling, in
pollution-exposure order. -/
def c1w_routes : List SafeRoute :=
  [ ⟨[⟨0, 0, 0, 4, 150, 9, 39/10, "road"⟩], 9, 39/10, 150, 150, 45/2, 1161/50⟩,
    ⟨[⟨0, 0, 0, 4, 2627/10, 6, 3, "road"⟩], 6, 3, 2627/10, 2627/10, 2627/100, 2687/100⟩,
    ⟨[⟨0, 0, 0, 4, 200, 12, 3, "cycling"⟩], 12, 3, 200, 200, 40, 1009/25⟩ ]

/-- The concrete route list returned on the C2-amended witness input
(`gEq`, hour 12, unit draws, `(0,0) → (0,2)`). -/
def c2w_routes : List SafeRoute :=
  [ ⟨[⟨0, 0, 0, 2, 150, 9, 39/10, "road"⟩], 9, 39/10, 150, 150, 45/2, 1161/50⟩,
    ⟨[⟨0, 0, 0, 2, 2627/10, 6, 3, "road"⟩], 6, 3, 2627/10, 2627/10, 2627/100, 2687/100⟩,
    ⟨[⟨0, 0, 0, 2, 200, 12, 3, "cycling"⟩], 12, 3, 200, 200, 40, 1009/25⟩ ]

/-- The concrete metro route generated on the C8/C6 witness input
(`gW2`, `(0,0) → (9,9)`; both nearest stations are Rajiv Chowk). -/
def c8w_metro : SafeRoute :=
  ⟨[⟨0, 0, 28.6315, 77.2167, 250, 10, 1, "walking"⟩,
    ⟨28.6315, 77.2167, 28.6315, 77.2167, 180, 1, 1, "metro"⟩,
    ⟨28.6315, 77.2167, 9, 9, 250, 30, 3, "walking"⟩],
    41, 5, 10180/41, 250, 509/3, 10303/60⟩

/-- The concrete cycling route generated on the C8 witness input. -/
def c8w_cycling : SafeRoute :=
  ⟨[⟨0, 0, 9, 9, 200, 12, 3, "cycling"⟩], 12, 3, 200, 200, 40, 1009/25⟩

/-- The concrete route list returned on the C6 witness input
(`gW2`, hour 12, unit draws, `(0,0) → (9,9)`): green, direct, cycling,
metro. -/
def c6w_routes : List SafeRoute :=
  [ ⟨[⟨0, 0, 9, 9, 150, 9, 39/10, "road"⟩], 9, 39/10, 150, 150, 45/2, 1161/50⟩,
    ⟨[⟨0, 0, 9, 9, 296, 6, 3, "road"⟩], 6, 3, 296, 296, 148/5, 151/5⟩,
    ⟨[⟨0, 0, 9, 9, 200, 12, 3, "cycling"⟩], 12, 3, 200, 200, 40, 1009/25⟩,
    c8w_metro ]

/-! ## Rounding lemmas -/

theorem floor_le_roundHalfEven (q : ℚ) : ⌊q⌋ ≤ roundHalfEven q := by
  unfold roundHalfEven
  split_ifs <;> omega

theorem le_roundHalfEven_of_le {q : ℚ} {n : ℤ} (h : (n : ℚ) ≤ q) :
    n ≤ roundHalfEven q := by
  have hf : n ≤ ⌊q⌋ := Int.le_floor.mpr h
  have := floor_le_roundHalfEven q
  omega

theorem roundHalfEven_le_of_le {q : ℚ} {n : ℤ} (h : q ≤ (n : ℚ)) :
    roundHalfEven q ≤ n := by
  have hf : ⌊q⌋ ≤ n := by
    have h' := Int.floor_le_floor h
    simpa using h'
  have hfq : (⌊q⌋ : ℚ) ≤ q := Int.floor_le q
  unfold roundHalfEven
  split_ifs with h1 h2 h3
  · exact hf
  · have hlt : (⌊q⌋ : ℚ) < (n : ℚ) := by linarith
    have : ⌊q⌋ < n := by exact_mod_cast hlt
    omega
  · exact hf
  · have h4 : (1 : ℚ)/2 ≤ q - ⌊q⌋ := le_of_not_lt h1
    have hlt : (⌊q⌋ : ℚ) < (n : ℚ) := by linarith
    have : ⌊q⌋ < n := by exact_mod_cast hlt
    omega

theorem le_pyRound_of_le {q : ℚ} {n : ℕ} {m : ℤ} (h : (m : ℚ) ≤ q * (10:ℚ)^n) :
    (m : ℚ) / (10:ℚ)^n ≤ pyRound q n := by
  unfold pyRound
  have h1 : m ≤ roundHalfEven (q * (10:ℚ)^n) := le_roundHalfEven_of_le h
  have hp : (0:ℚ) < (10:ℚ)^n := by positivity
  exact (div_le_div_right hp).mpr (by exact_mod_cast h1)

theorem pyRound_le_of_le {q : ℚ} {n : ℕ} {m : ℤ} (h : q * (10:ℚ)^n ≤ (m : ℚ)) :
    pyRound q n ≤ (m : ℚ) / (10:ℚ)^n := by
  unfold pyRound
  have h1 : roundHalfEven (q * (10:ℚ)^n) ≤ m := roundHalfEven_le_of_le h
  have hp : (0:ℚ) < (10:ℚ)^n := by positivity
  exact (div_le_div_right hp).mpr (by exact_mod_cast h1)

/-! ## Bounds on the interpolation and micro-adjustment outputs -/

theorem interpolate_confidence_bounds (nearby : List Location) :
    3/10 ≤ (interpolate_aqi nearby).confidence ∧
      (interpolate_aqi nearby).confidence ≤ 19/20 := by
  unfold interpolate_aqi
  split_ifs with h
  · norm_num
  · dsimp only
    set x : ℚ :=
      1 - (nearby.map (fun st => st.distance.getD 0)).sum / (nearby.length : ℚ) / 2 +
        (nearby.length : ℚ) * (1/10) with hx
    constructor
    · have h30 : ((30 : ℤ) : ℚ) ≤ (max (3/10) (min (19/20) x)) * (10:ℚ)^2 := by
        have hm : (3/10 : ℚ) ≤ max (3/10) (min (19/20) x) := le_max_left _ _
        push_cast
        nlinarith [hm]
      have := le_pyRound_of_le h30
      norm_num at this
      linarith [this]
    · have h95 : (max (3/10) (min (19/20) x)) * (10:ℚ)^2 ≤ ((95 : ℤ) : ℚ) := by
        have hm : max (3/10) (min (19/20) x) ≤ 19/20 :=
          max_le (by norm_num) (min_le_left _ _)
        push_cast
        nlinarith [hm]
      have := pyRound_le_of_le h95
      norm_num at this
      linarith [this]

theorem adjust_confidence_bounds (base : InterpResult) (m : MicroFactors)
    (h1 : 3/10 ≤ base.confidence) (h2 : base.confidence ≤ 19/20) :
    7/25 ≤ (adjust_aqi_for_local_factors base m).confidence ∧
      (adjust_aqi_for_local_factors base m).confidence ≤ 19/20 := by
  unfold adjust_aqi_for_local_factors
  dsimp only
  constructor
  · have h28 : ((28 : ℤ) : ℚ) ≤ (base.confidence * (19/20)) * (10:ℚ)^2 := by
      push_cast
      nlinarith [h1]
    have := le_pyRound_of_le h28
    norm_num at this
    linarith [this]
  · have h95 : (base.confidence * (19/20)) * (10:ℚ)^2 ≤ ((95 : ℤ) : ℚ) := by
      push_cast
      nlinarith [h2]
    have := pyRound_le_of_le h95
    norm_num at this
    linarith [this]

theorem adjust_aqi_bounds (base : InterpResult) (m : MicroFactors) :
    0 ≤ (adjust_aqi_for_local_factors base m).aqi ∧
      (adjust_aqi_for_local_factors base m).aqi ≤ 500 := by
  unfold adjust_aqi_for_local_factors
  dsimp only
  constructor
  · have h0 : ((0 : ℤ) : ℚ) ≤ (max 0 (min 500 (base.aqi * combined_factor m))) * (10:ℚ)^1 := by
      have hm : (0:ℚ) ≤ max 0 (min 500 (base.aqi * combined_factor m)) := le_max_left _ _
      push_cast
      nlinarith [hm]
    have := le_pyRound_of_le h0
    norm_num at this
    linarith [this]
  · have h5000 : (max 0 (min 500 (base.aqi * combined_factor m))) * (10:ℚ)^1 ≤ ((5000 : ℤ) : ℚ) := by
      have hm : max 0 (min 500 (base.aqi * combined_factor m)) ≤ 500 :=
        max_le (by norm_num) (min_le_left _ _)
      push_cast
      nlinarith [hm]
    have := pyRound_le_of_le h5000
    norm_num at this
    linarith [this]

/-! ## Frame lemmas for the station registry -/

theorem find_nearby_stations_registry_core (g : Geom) (lat lon radius : ℚ)
    (registry : List (String × Location)) :
    ((find_nearby_stations g lat lon radius registry).2).map
        (fun p => (p.1, core_view p.2)) =
      registry.map (fun p => (p.1, core_view p.2)) := by
  unfold find_nearby_stations
  dsimp only
  rw [List.map_map, List.map_map]
  apply List.map_congr_left
  intro p _
  dsimp [Function.comp]
  split_ifs <;> rfl

theorem find_nearby_stations_registry_aqi (g : Geom) (lat lon radius : ℚ)
    (registry : List (String × Location)) :
    ((find_nearby_stations g lat lon radius registry).2).map (fun p => p.2.aqi) =
      registry.map (fun p => p.2.aqi) := by
  have h := find_nearby_stations_registry_core g lat lon radius registry
  have h2 := congrArg
    (List.map (fun x : String × (ℚ × ℚ × String × ℚ × List (String × ℚ) × ℕ) =>
      x.2.2.2.2.1)) h
  simpa [List.map_map, Function.comp, core_view] using h2

theorem find_nearby_stations_registry_length (g : Geom) (lat lon radius : ℚ)
    (registry : List (String × Location)) :
    ((find_nearby_stations g lat lon radius registry).2).length = registry.length := by
  have h := congrArg List.length (find_nearby_stations_registry_core g lat lon radius registry)
  simpa using h

theorem get_city_average_aqi_congr {r1 r2 : List (String × Location)}
    (h : r1.map (fun p => p.2.aqi) = r2.map (fun p => p.2.aqi)) :
    get_city_average_aqi r1 = get_city_average_aqi r2 := by
  have hl : r1.length = r2.length := by
    have := congrArg List.length h
    simpa using this
  unfold get_city_average_aqi
  rw [h, hl]

/-! ## C3: bounds on confidence and AQI of hyperlocal results -/

set_option maxHeartbeats 1600000 in
/-- Claim C3 (counterexample).  The claim that every result of
`get_hyperlocal_aqi` has confidence in `[0.3, 0.95]` fails: with one station
at 1.8 km the interpolation confidence clamps to exactly `0.3`, and the
micro-adjustment step multiplies it by `0.95`, yielding `round(0.285, 2) =
0.28 < 0.3`. -/
theorem c3_counterexample :
    (get_hyperlocal_aqi gC3 12 d1111 0 0 2 monitoring_stations).1.confidence = 7/25 ∧
    ¬(3/10 ≤ (get_hyperlocal_aqi gC3 12 d1111 0 0 2 monitoring_stations).1.confidence) := by
  have h : (get_hyperlocal_aqi gC3 12 d1111 0 0 2 monitoring_stations).1.confidence = 7/25 := by
    norm_num [get_hyperlocal_aqi, find_nearby_stations, monitoring_stations, stable_sort,
      insertS, interpolate_aqi, add_weighted, calculate_micro_environmental_factors,
      time_of_day_factor, adjust_aqi_for_local_factors, combined_factor, pyRound,
      roundHalfEven, get_aqi_category, get_health_recommendations, get_city_average_aqi, gC3, d1111]
  exact ⟨h, by rw [h]; norm_num⟩

/-- Claim C3 (amended).  For every hyperlocal query (any geometry, hour, random
draws, coordinates and radius), the returned `confidence` lies in
`[0.28, 0.95]` (the interpolation confidence lies in `[0.3, 0.95]`, but the
micro-adjustment multiplies it by `0.95` before re-rounding) and the returned
`aqi` lies in `[0, 500]`. -/
theorem c3_amended_bounds (g : Geom) (hour : ℕ) (draws : MicroDraws)
    (lat lon radius : ℚ) :
    7/25 ≤ (get_hyperlocal_aqi g hour draws lat lon radius monitoring_stations).1.confidence ∧
    (get_hyperlocal_aqi g hour draws lat lon radius monitoring_stations).1.confidence ≤ 19/20 ∧
    0 ≤ (get_hyperlocal_aqi g hour draws lat lon radius monitoring_stations).1.aqi ∧
    (get_hyperlocal_aqi g hour draws lat lon radius monitoring_stations).1.aqi ≤ 500 := by
  unfold get_hyperlocal_aqi
  dsimp only
  split_ifs with h
  · rw [get_city_average_aqi_congr
      (find_nearby_stations_registry_aqi g lat lon radius monitoring_stations)]
    dsimp only
    refine ⟨?_, ?_, ?_, ?_⟩ <;>
      norm_num [get_city_average_aqi, monitoring_stations, pyRound, roundHalfEven]
  · have hi := interpolate_confidence_bounds
      (find_nearby_stations g lat lon radius monitoring_stations).1
    have hc := adjust_confidence_bounds
      (interpolate_aqi (find_nearby_stations g lat lon radius monitoring_stations).1)
      (calculate_micro_environmental_factors hour draws) hi.1 hi.2
    have ha := adjust_aqi_bounds
      (interpolate_aqi (find_nearby_stations g lat lon radius monitoring_stations).1)
      (calculate_micro_environmental_factors hour draws)
    exact ⟨hc.1, hc.2, ha.1, ha.2⟩

/-! ## C4: shape of the micro-adjustment computation -/

/-- Claim C4 (counterexample).  The claim that every pollutant concentration is
clamped to `[0, 500]` by `_adjust_aqi_for_local_factors` fails: with factors
`(1.2, 1.3, 1.1, 1.2, 1.4)` (all within their documented ranges, combined
factor `1.24`) a pollutant value of `450` is scaled to `558`, which is
outside `[0, 500]` — only the AQI is clamped. -/
theorem c4_counterexample :
    (adjust_aqi_for_local_factors ⟨100, [("pm25", 450)], 1/2⟩
        ⟨12/10, 13/10, 11/10, 12/10, 14/10⟩).pollutants = [("pm25", 558)] ∧
      ¬((558:ℚ) ≤ 500) := by
  constructor
  · norm_num [adjust_aqi_for_local_factors, combined_factor, pyRound, roundHalfEven]
  · norm_num

/-- Claim C4 (amended).  The combined adjustment factor is the arithmetic mean
of the five environmental factors; the AQI is scaled by it and clamped to
`[0, 500]`; every pollutant concentration is scaled by it (and rounded) but
*not* clamped. -/
theorem c4_amended_adjustment (base : InterpResult) (m : MicroFactors) :
    combined_factor m = (m.time_factor + m.traffic_factor + m.green_space_factor +
        m.industrial_factor + m.construction_factor) / 5 ∧
    (adjust_aqi_for_local_factors base m).aqi =
      pyRound (max 0 (min 500 (base.aqi * combined_factor m))) 1 ∧
    (0 ≤ (adjust_aqi_for_local_factors base m).aqi ∧
      (adjust_aqi_for_local_factors base m).aqi ≤ 500) ∧
    (adjust_aqi_for_local_factors base m).pollutants =
      base.pollutants.map (fun p => (p.1, pyRound (p.2 * combined_factor m) 1)) :=
  ⟨rfl, rfl, adjust_aqi_bounds base m, rfl⟩

/-! ## C10: range of the combined adjustment factor -/

/-- Claim C10.  For every draw of the five micro-environmental factors within
their source ranges (the time factor is one of `{0.8, 1.0, 1.2}` by
construction; traffic in `[0.9, 1.3]`, green-space in `[0.7, 1.1]`,
industrial in `[0.8, 1.2]`, construction in `[0.9, 1.4]`), the combined
factor lies in `[0.82, 1.24]`, and hence the adjusted AQI before clamping
(`base.aqi * combined_factor`) lies within `[0.82, 1.24]` times the
interpolated AQI. -/
theorem c10_combined_factor_range (hour : ℕ) (draws : MicroDraws)
    (h1 : 9/10 ≤ draws.traffic) (h2 : draws.traffic ≤ 13/10)
    (h3 : 7/10 ≤ draws.green_space) (h4 : draws.green_space ≤ 11/10)
    (h5 : 8/10 ≤ draws.industrial) (h6 : draws.industrial ≤ 12/10)
    (h7 : 9/10 ≤ draws.construction) (h8 : draws.construction ≤ 14/10) :
    82/100 ≤ combined_factor (calculate_micro_environmental_factors hour draws) ∧
    combined_factor (calculate_micro_environmental_factors hour draws) ≤ 124/100 ∧
    ∀ base : InterpResult, 0 ≤ base.aqi →
      82/100 * base.aqi ≤
        base.aqi * combined_factor (calculate_micro_environmental_factors hour draws) ∧
      base.aqi * combined_factor (calculate_micro_environmental_factors hour draws) ≤
        124/100 * base.aqi := by
  have ht : time_of_day_factor hour = 8/10 ∨ time_of_day_factor hour = 1 ∨
      time_of_day_factor hour = 12/10 := by
    unfold time_of_day_factor
    split_ifs <;> norm_num
  have hlo : 82/100 ≤ combined_factor (calculate_micro_environmental_factors hour draws) := by
    unfold combined_factor calculate_micro_environmental_factors
    dsimp only
    rcases ht with h | h | h <;> rw [h] <;> linarith
  have hhi : combined_factor (calculate_micro_environmental_factors hour draws) ≤ 124/100 := by
    unfold combined_factor calculate_micro_environmental_factors
    dsimp only
    rcases ht with h | h | h <;> rw [h] <;> linarith
  refine ⟨hlo, hhi, ?_⟩
  intro base hb
  constructor
  · calc 82/100 * base.aqi ≤
        combined_factor (calculate_micro_environmental_factors hour draws) * base.aqi :=
          mul_le_mul_of_nonneg_right hlo hb
      _ = base.aqi * combined_factor (calculate_micro_environmental_factors hour draws) :=
          mul_comm _ _
  · calc base.aqi * combined_factor (calculate_micro_environmental_factors hour draws) =
        combined_factor (calculate_micro_environmental_factors hour draws) * base.aqi :=
          mul_comm _ _
      _ ≤ 124/100 * base.aqi := mul_le_mul_of_nonneg_right hhi hb

/-- Claim C10 witness: applies `c10_combined_factor_range` at hour 12 and all four uniform
draws equal to 1. -/
theorem c10_witness :
    ((9:ℚ)/10 ≤ (MicroDraws.mk 1 1 1 1).traffic ∧ (MicroDraws.mk 1 1 1 1).traffic ≤ 13/10 ∧
      (7:ℚ)/10 ≤ (MicroDraws.mk 1 1 1 1).green_space ∧ (MicroDraws.mk 1 1 1 1).green_space ≤ 11/10 ∧
      (8:ℚ)/10 ≤ (MicroDraws.mk 1 1 1 1).industrial ∧ (MicroDraws.mk 1 1 1 1).industrial ≤ 12/10 ∧
      (9:ℚ)/10 ≤ (MicroDraws.mk 1 1 1 1).construction ∧ (MicroDraws.mk 1 1 1 1).construction ≤ 14/10) ∧
    82/100 ≤ combined_factor (calculate_micro_environmental_factors 12 (MicroDraws.mk 1 1 1 1)) ∧
    combined_factor (calculate_micro_environmental_factors 12 (MicroDraws.mk 1 1 1 1)) ≤ 124/100 ∧
    82/100 * 100 ≤ (100:ℚ) * combined_factor (calculate_micro_environmental_factors 12 (MicroDraws.mk 1 1 1 1)) := by
  have h := c10_combined_factor_range 12 (MicroDraws.mk 1 1 1 1)
    (by norm_num [d1111]) (by norm_num [d1111]) (by norm_num [d1111]) (by norm_num [d1111])
    (by norm_num [d1111]) (by norm_num [d1111]) (by norm_num [d1111]) (by norm_num [d1111])
  refine ⟨by norm_num, h.1, h.2.1, ?_⟩
  have h100 := h.2.2 ⟨100, [], 1/2⟩ (by norm_num)
  exact h100.1

/-! ## C7: exact fallback result with zero nearby stations -/

/-- Claim C7.  Whenever no monitoring station lies within the query radius, the
result of `get_hyperlocal_aqi` has confidence exactly `0.6`, AQI exactly the
citywide average of the registry stations (`262.7`), and carries the
low-precision note. -/
theorem c7_fallback_exact (g : Geom) (hour : ℕ) (draws : MicroDraws)
    (lat lon radius : ℚ)
    (h : (find_nearby_stations g lat lon radius monitoring_stations).1 = []) :
    (get_hyperlocal_aqi g hour draws lat lon radius monitoring_stations).1.confidence = 6/10 ∧
    (get_hyperlocal_aqi g hour draws lat lon radius monitoring_stations).1.aqi =
      pyRound ((monitoring_stations.map (fun p => p.2.aqi)).sum /
        (monitoring_stations.length : ℚ)) 1 ∧
    (get_hyperlocal_aqi g hour draws lat lon radius monitoring_stations).1.aqi = 2627/10 ∧
    (get_hyperlocal_aqi g hour draws lat lon radius monitoring_stations).1.note =
      some "City average - less precise than hyperlocal data" := by
  unfold get_hyperlocal_aqi
  dsimp only
  rw [if_pos h]
  rw [get_city_average_aqi_congr
    (find_nearby_stations_registry_aqi g lat lon radius monitoring_stations)]
  refine ⟨?_, rfl, ?_, rfl⟩ <;>
    norm_num [get_city_average_aqi, monitoring_stations, pyRound, roundHalfEven]

/-- Claim C7 witness, applying `c7_fallback_exact`: with every distance equal to 3 km no
station is within the default 2 km radius. -/
theorem c7_witness :
    (find_nearby_stations gFar 0 0 2 monitoring_stations).1 = [] ∧
    (get_hyperlocal_aqi gFar 12 d1111 0 0 2 monitoring_stations).1.confidence = 6/10 ∧
    (get_hyperlocal_aqi gFar 12 d1111 0 0 2 monitoring_stations).1.aqi = 2627/10 := by
  have hnil : (find_nearby_stations gFar 0 0 2 monitoring_stations).1 = [] := by
    norm_num [find_nearby_stations, monitoring_stations, gFar, stable_sort, insertS]
  exact ⟨hnil, (c7_fallback_exact gFar 12 d1111 0 0 2 hnil).1,
    (c7_fallback_exact gFar 12 d1111 0 0 2 hnil).2.2.1⟩

/-! ## C9: shape of the returned dict -/

/-- Claim C9.  The fallback dict returned by `get_hyperlocal_aqi` when no
station is within the radius has exactly the keys `aqi, category, pollutants,
confidence, note`, while every within-radius result has exactly the keys
`latitude, longitude, aqi, category, pollutants, confidence, nearby_stations,
micro_factors, health_recommendations, timestamp` (and no `note`). -/
theorem c9_result_shape (g : Geom) (hour : ℕ) (draws : MicroDraws)
    (lat lon radius : ℚ) :
    result_keys (get_hyperlocal_aqi g hour draws lat lon radius monitoring_stations).1 =
      if (find_nearby_stations g lat lon radius monitoring_stations).1 = [] then
        ["aqi", "category", "pollutants", "confidence", "note"]
      else
        ["latitude", "longitude", "aqi", "category", "pollutants", "confidence",
          "nearby_stations", "micro_factors", "health_recommendations", "timestamp"] := by
  unfold get_hyperlocal_aqi
  dsimp only
  split_ifs with h
  · rfl
  · rfl

/-! ## C5: the registry is not read-only -/

/-- Claim C5 (counterexample).  The claim that `_find_nearby_stations` leaves
every registry entry unchanged (and writes no new attribute) fails: querying
at the Central Delhi coordinates writes `distance = 0.0` onto that entry. -/
theorem c5_counterexample :
    (find_nearby_stations gEq 28.6139 77.2090 2 monitoring_stations).2 ≠
      monitoring_stations := by
  have hv : ((find_nearby_stations gEq 28.6139 77.2090 2 monitoring_stations).2.map
      (fun p => p.2.distance)).head? = some (some 0) := by
    norm_num [find_nearby_stations, monitoring_stations, gEq]
  intro h
  rw [h] at hv
  norm_num [monitoring_stations] at hv
  exact Option.noConfusion hv

/-- Claim C5 (amended).  Every dataclass-declared field (latitude, longitude,
name, aqi, pollutants, timestamp) of every registry entry is unchanged by
`_find_nearby_stations` and by `get_hyperlocal_aqi`; only the dynamically
written `distance` attribute can change. -/
theorem c5_registry_fields_preserved (g : Geom) (hour : ℕ) (draws : MicroDraws)
    (lat lon radius : ℚ) (registry : List (String × Location)) :
    ((find_nearby_stations g lat lon radius registry).2).map
        (fun p => (p.1, core_view p.2)) =
      registry.map (fun p => (p.1, core_view p.2)) ∧
    ((get_hyperlocal_aqi g hour draws lat lon radius registry).2).map
        (fun p => (p.1, core_view p.2)) =
      registry.map (fun p => (p.1, core_view p.2)) := by
  refine ⟨find_nearby_stations_registry_core g lat lon radius registry, ?_⟩
  unfold get_hyperlocal_aqi
  dsimp only
  split_ifs <;> exact find_nearby_stations_registry_core g lat lon radius registry

/-! ## Stable sort lemmas -/

theorem insertS_perm {α : Type} (le : α → α → Bool) (a : α) (l : List α) :
    (insertS le a l).Perm (a :: l) := by
  induction l with
  | nil => simp [insertS]
  | cons b t ih =>
    simp only [insertS]
    split_ifs with h
    · exact List.Perm.refl _
    · exact (List.Perm.cons b ih).trans (List.Perm.swap a b t)

theorem stable_sort_perm {α : Type} (le : α → α → Bool) (l : List α) :
    (stable_sort le l).Perm l := by
  induction l with
  | nil => simp [stable_sort]
  | cons a t ih =>
    simp only [stable_sort]
    exact (insertS_perm le a _).trans (List.Perm.cons a ih)

theorem insertS_pairwise {α : Type} {le : α → α → Bool}
    (htrans : ∀ x y z, le x y = true → le y z = true → le x z = true)
    (htot : ∀ x y, le x y = true ∨ le y x = true)
    (a : α) {l : List α} (h : l.Pairwise (fun x y => le x y = true)) :
    (insertS le a l).Pairwise (fun x y => le x y = true) := by
  induction l with
  | nil => simp [insertS]
  | cons b t ih =>
    rcases List.pairwise_cons.mp h with ⟨hb, ht⟩
    simp only [insertS]
    split_ifs with hab
    · refine List.pairwise_cons.mpr ⟨?_, h⟩
      intro x hx
      rcases List.mem_cons.mp hx with rfl | hx
      · exact hab
      · exact htrans a b x hab (hb x hx)
    · have hba : le b a = true := (htot a b).resolve_left hab
      refine List.pairwise_cons.mpr ⟨?_, ih ht⟩
      intro x hx
      rcases List.mem_cons.mp ((insertS_perm le a t).mem_iff.mp hx) with rfl | hx'
      · exact hba
      · exact hb x hx'

theorem stable_sort_pairwise {α : Type} {le : α → α → Bool}
    (htrans : ∀ x y z, le x y = true → le y z = true → le x z = true)
    (htot : ∀ x y, le x y = true ∨ le y x = true)
    (l : List α) :
    (stable_sort le l).Pairwise (fun x y => le x y = true) := by
  induction l with
  | nil => simp [stable_sort]
  | cons a t ih =>
    simp only [stable_sort]
    exact insertS_pairwise htrans htot a ih

/-! ## Inversion lemmas for `get_safe_routes` -/

theorem get_safe_routes_ok_eq {g : Geom} {hour : ℕ} {draws : MicroDraws}
    {slat slon elat elon : ℚ} {rt : String} {rs : List SafeRoute}
    (h : get_safe_routes g hour draws slat slon elat elon rt = .ok rs) :
    ∃ mopt, generate_metro_route g slat slon elat elon = .ok mopt ∧
      rs = (stable_sort (fun a b => a.pollution_exposure ≤ b.pollution_exposure)
        (candidate_routes g hour draws slat slon elat elon mopt)).take 5 := by
  unfold get_safe_routes at h
  cases hm : generate_metro_route g slat slon elat elon with
  | error e => rw [hm] at h; simp at h
  | ok mopt =>
    rw [hm] at h
    dsimp only at h
    exact ⟨mopt, rfl, (Except.ok.inj h).symm⟩

theorem candidate_routes_length_le (g : Geom) (hour : ℕ) (draws : MicroDraws)
    (slat slon elat elon : ℚ) (mopt : Option SafeRoute) :
    (candidate_routes g hour draws slat slon elat elon mopt).length ≤ 5 := by
  simp only [candidate_routes, List.length_append, List.length_cons, List.length_nil]
  have h1 : mopt.toList.length ≤ 1 := by cases mopt <;> simp
  have h2 : (generate_cycling_route g slat slon elat elon).toList.length ≤ 1 := by
    cases generate_cycling_route g slat slon elat elon <;> simp
  have h3 : (if g.dist slat slon elat elon < 3 then
      [generate_walking_route g slat slon elat elon] else []).length ≤ 1 := by
    split_ifs <;> simp
  omega

theorem get_safe_routes_ok_perm {g : Geom} {hour : ℕ} {draws : MicroDraws}
    {slat slon elat elon : ℚ} {rt : String} {rs : List SafeRoute}
    (h : get_safe_routes g hour draws slat slon elat elon rt = .ok rs) :
    ∃ mopt, generate_metro_route g slat slon elat elon = .ok mopt ∧
      rs.Perm (candidate_routes g hour draws slat slon elat elon mopt) := by
  obtain ⟨mopt, hm, hrs⟩ := get_safe_routes_ok_eq h
  refine ⟨mopt, hm, ?_⟩
  subst hrs
  have hp := stable_sort_perm
    (fun a b : SafeRoute => a.pollution_exposure ≤ b.pollution_exposure)
    (candidate_routes g hour draws slat slon elat elon mopt)
  rw [List.take_of_length_le]
  · exact hp
  · rw [hp.length_eq]
    exact candidate_routes_length_le g hour draws slat slon elat elon mopt

theorem mem_candidate_routes {g : Geom} {hour : ℕ} {draws : MicroDraws}
    {slat slon elat elon : ℚ} {mopt : Option SafeRoute} {r : SafeRoute} :
    r ∈ candidate_routes g hour draws slat slon elat elon mopt ↔
      (r = generate_direct_route g hour draws slat slon elat elon ∨
       mopt = some r ∨
       r = generate_green_route g slat slon elat elon ∨
       generate_cycling_route g slat slon elat elon = some r ∨
       (g.dist slat slon elat elon < 3 ∧
         r = generate_walking_route g slat slon elat elon)) := by
  simp only [candidate_routes, List.mem_append, List.mem_singleton, List.mem_cons,
    List.not_mem_nil, or_false]
  constructor
  · rintro ((((rfl | h) | h) | h) | h)
    · exact Or.inl rfl
    · rcases Option.mem_toList.mp h with h'
      exact Or.inr (Or.inl (Option.mem_def.mp h'))
    · exact Or.inr (Or.inr (Or.inl h))
    · rcases Option.mem_toList.mp h with h'
      exact Or.inr (Or.inr (Or.inr (Or.inl (Option.mem_def.mp h'))))
    · have hw : g.dist slat slon elat elon < 3 ∧
          r = generate_walking_route g slat slon elat elon := by
        split_ifs at h with hlt
        · exact ⟨hlt, List.mem_singleton.mp h⟩
        · exact absurd h (List.not_mem_nil r)
      exact Or.inr (Or.inr (Or.inr (Or.inr hw)))
  · rintro (rfl | h | rfl | h | ⟨hlt, rfl⟩)
    · exact Or.inl (Or.inl (Or.inl (Or.inl rfl)))
    · exact Or.inl (Or.inl (Or.inl (Or.inr (Option.mem_toList.mpr (Option.mem_def.mpr h)))))
    · exact Or.inl (Or.inl (Or.inr rfl))
    · exact Or.inl (Or.inr (Option.mem_toList.mpr (Option.mem_def.mpr h)))
    · refine Or.inr ?_
      rw [if_pos hlt]
      exact List.mem_singleton.mpr rfl

/-! ## Facts about the individual route generators -/

theorem generate_cycling_route_inv {g : Geom} {slat slon elat elon : ℚ} {r : SafeRoute}
    (h : generate_cycling_route g slat slon elat elon = some r) :
    has_segment_type r "metro" = false ∧
    has_segment_type r "cycling" = true ∧
    r.segments.all (fun s => decide (s.route_type = "walking")) = false ∧
    route_formula r (3/100) := by
  simp only [generate_cycling_route] at h
  split_ifs at h with hd
  obtain rfl := Option.some.inj h
  exact ⟨rfl, rfl, rfl, rfl, rfl⟩

theorem cycling_route_none_of_far {g : Geom} {slat slon elat elon : ℚ}
    (hd : 15 < g.dist slat slon elat elon) :
    generate_cycling_route g slat slon elat elon = none := by
  unfold generate_cycling_route
  rw [if_pos hd]

theorem div_mul_div_cancel_sixty (S td : ℚ) (h : td ≠ 0) :
    S / td * (td / 60) = S / 60 := by
  field_simp

theorem generate_metro_route_inv {g : Geom} {slat slon elat elon : ℚ} {r : SafeRoute}
    (h : generate_metro_route g slat slon elat elon = .ok (some r)) :
    (find_nearest_metro_station g slat slon).isSome = true ∧
    (find_nearest_metro_station g elat elon).isSome = true ∧
    has_segment_type r "metro" = true ∧
    has_segment_type r "cycling" = false ∧
    r.segments.all (fun s => decide (s.route_type = "walking")) = false ∧
    route_formula r (1/20) := by
  unfold generate_metro_route at h
  cases h1 : find_nearest_metro_station g slat slon with
  | none => rw [h1] at h; simp at h
  | some s1 =>
    cases h2 : find_nearest_metro_station g elat elon with
    | none => rw [h1, h2] at h; simp at h
    | some s2 =>
      rw [h1, h2] at h
      simp only [] at h
      split_ifs at h with htd
      obtain rfl := Option.some.inj (Except.ok.inj h)
      refine ⟨rfl, rfl, rfl, rfl, rfl, ?_, rfl⟩
      have htd' : ((pyInt (g.dist slat slon s1.latitude s1.longitude * 10) +
          pyInt (g.dist s1.latitude s1.longitude s2.latitude s2.longitude * (3/2)) +
          pyInt (g.dist s2.latitude s2.longitude elat elon * 10) : ℤ) : ℚ) ≠ 0 := by
        exact_mod_cast htd
      show _ = _
      rw [div_mul_div_cancel_sixty _ _ htd']
      ring

theorem metro_route_of_eligible {g : Geom} {slat slon elat elon : ℚ}
    (h1 : (find_nearest_metro_station g slat slon).isSome = true)
    (h2 : (find_nearest_metro_station g elat elon).isSome = true)
    (hne : generate_metro_route g slat slon elat elon ≠ .error ()) :
    ∃ r, generate_metro_route g slat slon elat elon = .ok (some r) := by
  obtain ⟨s1, hs1⟩ := Option.isSome_iff_exists.mp h1
  obtain ⟨s2, hs2⟩ := Option.isSome_iff_exists.mp h2
  unfold generate_metro_route at hne ⊢
  rw [hs1, hs2] at hne ⊢
  dsimp only at hne ⊢
  split_ifs at hne ⊢ with htd
  · exact absurd rfl hne
  · exact ⟨_, rfl⟩



/-! ## C8: exposure and score formulas of every generator -/

/-- Claim C8.  Every route produced by a generator satisfies
`pollution_exposure = avg_aqi * (total_duration / 60)` and
`route_score = pollution_exposure + total_duration * c` with the per-mode
constant `c`: `0.1` direct road, `0.05` metro, `0.08` green, `0.03` cycling,
`0.02` walking. -/
theorem c8_route_formulas (g : Geom) (hour : ℕ) (draws : MicroDraws)
    (slat slon elat elon : ℚ) :
    route_formula (generate_direct_route g hour draws slat slon elat elon) (1/10) ∧
    (∀ r, generate_metro_route g slat slon elat elon = .ok (some r) →
      route_formula r (1/20)) ∧
    route_formula (generate_green_route g slat slon elat elon) (2/25) ∧
    (∀ r, generate_cycling_route g slat slon elat elon = some r →
      route_formula r (3/100)) ∧
    route_formula (generate_walking_route g slat slon elat elon) (1/50) := by
  refine ⟨⟨rfl, rfl⟩, ?_, ⟨rfl, rfl⟩, ?_, ⟨rfl, rfl⟩⟩
  · intro r hr
    exact (generate_metro_route_inv hr).2.2.2.2.2
  · intro r hr
    exact (generate_cycling_route_inv hr).2.2.2

set_option maxHeartbeats 1600000 in
/-- Claim C8 witness, applying `c8_route_formulas`: on the `gW2` geometry the metro route
(`.ok (some _)`) and the cycling route (`some _`) both exist, and all five
formulas evaluate on them. -/
theorem c8_witness :
    route_formula (generate_direct_route gW2 12 d1111 0 0 9 9) (1/10) ∧
    (generate_metro_route gW2 0 0 9 9 = .ok (some c8w_metro) ∧
      route_formula c8w_metro (1/20)) ∧
    route_formula (generate_green_route gW2 0 0 9 9) (2/25) ∧
    (generate_cycling_route gW2 0 0 9 9 = some c8w_cycling ∧
      route_formula c8w_cycling (3/100)) ∧
    route_formula (generate_walking_route gW2 0 0 9 9) (1/50) := by
  have hm : generate_metro_route gW2 0 0 9 9 = .ok (some c8w_metro) := by
    norm_num [generate_metro_route, find_nearest_metro_station, metro_scan_step,
      metro_stations, gW2, pyInt, c8w_metro]
  have hc : generate_cycling_route gW2 0 0 9 9 = some c8w_cycling := by
    norm_num [generate_cycling_route, gW2, pyInt, c8w_cycling]
  have h := c8_route_formulas gW2 12 d1111 0 0 9 9
  exact ⟨h.1, ⟨hm, h.2.1 c8w_metro hm⟩, h.2.2.1,
    ⟨hc, h.2.2.2.1 c8w_cycling hc⟩, h.2.2.2.2⟩

/-! ## C1: size and sort order of the returned route list -/

set_option maxHeartbeats 1600000 in
/-- Claim C1 (counterexample).  The returned route list is *not* sorted by
`route_score`: on the `gC1` geometry (10 km apart, one station 0.5 km from
the midpoint) with night-hour draws `dC1`, the call succeeds but consecutive
route scores are not ascending (the list is sorted by `pollution_exposure`
instead: green 80 < direct 80.03̅ but green's score 82.56 > direct's 82.03̅). -/
theorem c1_counterexample :
    (get_safe_routes gC1 23 dC1 0 0 0 2 "optimal").map
      (chain_le_by (fun r => r.route_score)) = .ok false := by
  norm_num [get_safe_routes, candidate_routes, generate_direct_route, generate_metro_route,
      generate_green_route, generate_cycling_route, generate_walking_route,
      find_nearest_metro_station, metro_scan_step, metro_stations, pyInt, chain_le_by,
      Except.map,
      get_hyperlocal_aqi, find_nearby_stations, monitoring_stations, stable_sort,
      insertS, interpolate_aqi, add_weighted, calculate_micro_environmental_factors,
      time_of_day_factor, adjust_aqi_for_local_factors, combined_factor, pyRound,
      roundHalfEven, get_aqi_category, get_health_recommendations, get_city_average_aqi, gC1, dC1]

/-- Claim C1 (amended).  Every successful `get_safe_routes` call returns at
most five routes, sorted ascending by `pollution_exposure` (the source sorts
with `routes.sort(key=lambda x: x.pollution_exposure)`, not by
`route_score`). -/
theorem c1_amended_sorted_by_exposure {g : Geom} {hour : ℕ} {draws : MicroDraws}
    {slat slon elat elon : ℚ} {rt : String} {rs : List SafeRoute}
    (h : get_safe_routes g hour draws slat slon elat elon rt = .ok rs) :
    rs.length ≤ 5 ∧
    List.Chain' (fun a b : SafeRoute =>
      a.pollution_exposure ≤ b.pollution_exposure) rs := by
  obtain ⟨mopt, hm, hrs⟩ := get_safe_routes_ok_eq h
  subst hrs
  constructor
  · rw [List.length_take]
    exact min_le_left _ _
  · have htrans : ∀ x y z : SafeRoute,
        (decide (x.pollution_exposure ≤ y.pollution_exposure)) = true →
        (decide (y.pollution_exposure ≤ z.pollution_exposure)) = true →
        (decide (x.pollution_exposure ≤ z.pollution_exposure)) = true := by
      intro x y z hxy hyz
      exact decide_eq_true (le_trans (of_decide_eq_true hxy) (of_decide_eq_true hyz))
    have htot : ∀ x y : SafeRoute,
        (decide (x.pollution_exposure ≤ y.pollution_exposure)) = true ∨
        (decide (y.pollution_exposure ≤ x.pollution_exposure)) = true := by
      intro x y
      rcases le_total x.pollution_exposure y.pollution_exposure with h' | h'
      · exact Or.inl (decide_eq_true h')
      · exact Or.inr (decide_eq_true h')
    have hp := stable_sort_pairwise htrans htot
      (candidate_routes g hour draws slat slon elat elon mopt)
    have hp' := hp.sublist (List.take_sublist 5 _)
    exact (hp'.imp (fun hxy => of_decide_eq_true hxy)).chain'

set_option maxHeartbeats 1600000 in
/-- Claim C1 witness, applying `c1_amended_sorted_by_exposure` on a concrete
successful call. -/
theorem c1_witness :
    get_safe_routes gEq 12 d1111 0 0 0 4 "optimal" = .ok c1w_routes ∧
    (c1w_routes.length ≤ 5 ∧
      List.Chain' (fun a b : SafeRoute =>
        a.pollution_exposure ≤ b.pollution_exposure) c1w_routes) := by
  have he : get_safe_routes gEq 12 d1111 0 0 0 4 "optimal" = .ok c1w_routes := by
    norm_num [get_safe_routes, candidate_routes, generate_direct_route, generate_metro_route,
      generate_green_route, generate_cycling_route, generate_walking_route,
      find_nearest_metro_station, metro_scan_step, metro_stations, pyInt, chain_le_by,
      Except.map,
      get_hyperlocal_aqi, find_nearby_stations, monitoring_stations, stable_sort,
      insertS, interpolate_aqi, add_weighted, calculate_micro_environmental_factors,
      time_of_day_factor, adjust_aqi_for_local_factors, combined_factor, pyRound,
      roundHalfEven, get_aqi_category, get_health_recommendations, get_city_average_aqi, gEq, d1111, c1w_routes]
  exact ⟨he, c1_amended_sorted_by_exposure he⟩

/-! ## C2: error behaviour and non-emptiness -/

set_option maxHeartbeats 1600000 in
/-- Claim C2 (counterexample).  `get_safe_routes` *can* raise: with start and
end both at the Rajiv Chowk metro-station coordinates, every walking/metro
leg has length 0, the metro route's `total_duration` is 0, and the source
line `avg_aqi = … / total_duration` raises `ZeroDivisionError` (modelled as
`Except.error ()`). -/
theorem c2_counterexample :
    get_safe_routes gEq 12 d1111 28.6315 77.2167 28.6315 77.2167 "optimal" =
      .error () := by
  norm_num [get_safe_routes, generate_metro_route, find_nearest_metro_station,
    metro_scan_step, metro_stations, gEq, pyInt, d1111]

/-- Claim C2 (amended).  Whenever `get_safe_routes` returns (does not raise),
the returned list contains the direct route — which is appended
unconditionally — and is therefore never empty. -/
theorem c2_amended_nonempty {g : Geom} {hour : ℕ} {draws : MicroDraws}
    {slat slon elat elon : ℚ} {rt : String} {rs : List SafeRoute}
    (h : get_safe_routes g hour draws slat slon elat elon rt = .ok rs) :
    generate_direct_route g hour draws slat slon elat elon ∈ rs ∧ rs ≠ [] := by
  obtain ⟨mopt, hm, hperm⟩ := get_safe_routes_ok_perm h
  have hmem : generate_direct_route g hour draws slat slon elat elon ∈
      candidate_routes g hour draws slat slon elat elon mopt :=
    mem_candidate_routes.mpr (Or.inl rfl)
  have hd := hperm.mem_iff.mpr hmem
  exact ⟨hd, List.ne_nil_of_mem hd⟩

set_option maxHeartbeats 1600000 in
/-- Claim C2 witness, applying `c2_amended_nonempty` on a concrete successful
call. -/
theorem c2_witness :
    get_safe_routes gEq 12 d1111 0 0 0 2 "optimal" = .ok c2w_routes ∧
    (generate_direct_route gEq 12 d1111 0 0 0 2 ∈ c2w_routes ∧
      c2w_routes ≠ []) := by
  have he : get_safe_routes gEq 12 d1111 0 0 0 2 "optimal" = .ok c2w_routes := by
    norm_num [get_safe_routes, candidate_routes, generate_direct_route, generate_metro_route,
      generate_green_route, generate_cycling_route, generate_walking_route,
      find_nearest_metro_station, metro_scan_step, metro_stations, pyInt, chain_le_by,
      Except.map,
      get_hyperlocal_aqi, find_nearby_stations, monitoring_stations, stable_sort,
      insertS, interpolate_aqi, add_weighted, calculate_micro_environmental_factors,
      time_of_day_factor, adjust_aqi_for_local_factors, combined_factor, pyRound,
      roundHalfEven, get_aqi_category, get_health_recommendations, get_city_average_aqi, gEq, d1111, c2w_routes]
  exact ⟨he, c2_amended_nonempty he⟩

/-! ## C6: route eligibility -/

theorem metro_scan_step_isSome (g : Geom) (lat lon : ℚ)
    (acc : Option (Location × ℚ)) (p : String × Location) :
    ((metro_scan_step g lat lon acc p).isSome = true) ↔
      (acc.isSome = true ∨ g.dist lat lon p.2.latitude p.2.longitude < 2) := by
  cases acc with
  | none =>
    unfold metro_scan_step
    dsimp only
    split_ifs with h' <;> simp [h']
  | some pr =>
    rcases pr with ⟨st, md⟩
    unfold metro_scan_step
    dsimp only
    split_ifs <;> simp

theorem metro_scan_isSome (g : Geom) (lat lon : ℚ)
    (l : List (String × Location)) (acc : Option (Location × ℚ)) :
    ((l.foldl (metro_scan_step g lat lon) acc).isSome = true) ↔
      (acc.isSome = true ∨
        ∃ p ∈ l, g.dist lat lon p.2.latitude p.2.longitude < 2) := by
  induction l generalizing acc with
  | nil => simp
  | cons p t ih =>
    rw [List.foldl_cons, ih, metro_scan_step_isSome]
    simp only [List.mem_cons, or_assoc]
    constructor
    · rintro (h | h | ⟨q, hq, hd⟩)
      · exact Or.inl h
      · exact Or.inr ⟨p, Or.inl rfl, h⟩
      · exact Or.inr ⟨q, Or.inr hq, hd⟩
    · rintro (h | ⟨q, (rfl | hq), hd⟩)
      · exact Or.inl h
      · exact Or.inr (Or.inl hd)
      · exact Or.inr (Or.inr ⟨q, hq, hd⟩)

theorem find_nearest_metro_station_isSome (g : Geom) (lat lon : ℚ) :
    ((find_nearest_metro_station g lat lon).isSome = true) ↔
      ∃ p ∈ metro_stations, g.dist lat lon p.2.latitude p.2.longitude < 2 := by
  have hmap : ∀ (o : Option (Location × ℚ)), (o.map Prod.fst).isSome = o.isSome := by
    intro o; cases o <;> rfl
  unfold find_nearest_metro_station
  rw [hmap, metro_scan_isSome]
  simp

/-- Claim C6.  For every successful `get_safe_routes` call: a metro-assisted
route (one with a `metro`-tagged segment) is in the result iff some metro
station lies strictly within 2 km of the start *and* some metro station lies
strictly within 2 km of the end; when the start–end distance exceeds 15 km no
cycling-tagged route appears; and an all-walking route appears only when the
distance is strictly below 3 km. -/
theorem c6_route_eligibility {g : Geom} {hour : ℕ} {draws : MicroDraws}
    {slat slon elat elon : ℚ} {rt : String} {rs : List SafeRoute}
    (h : get_safe_routes g hour draws slat slon elat elon rt = .ok rs) :
    ((∃ r ∈ rs, has_segment_type r "metro" = true) ↔
      ((∃ p ∈ metro_stations, g.dist slat slon p.2.latitude p.2.longitude < 2) ∧
       (∃ p ∈ metro_stations, g.dist elat elon p.2.latitude p.2.longitude < 2))) ∧
    (15 < g.dist slat slon elat elon →
      ∀ r ∈ rs, has_segment_type r "cycling" = false) ∧
    ((∃ r ∈ rs, r.segments.all (fun s => decide (s.route_type = "walking")) = true) →
      g.dist slat slon elat elon < 3) := by
  obtain ⟨mopt, hm, hperm⟩ := get_safe_routes_ok_perm h
  have hne : generate_metro_route g slat slon elat elon ≠ .error () := by
    rw [hm]
    exact fun hc => Except.noConfusion hc
  refine ⟨⟨?_, ?_⟩, ?_, ?_⟩
  · rintro ⟨r, hr, hmet⟩
    rcases mem_candidate_routes.mp (hperm.mem_iff.mp hr) with
      rfl | hsome | rfl | hcyc | ⟨hlt, rfl⟩
    · have hf : has_segment_type
          (generate_direct_route g hour draws slat slon elat elon) "metro" = false := rfl
      rw [hf] at hmet
      exact Bool.noConfusion hmet
    · rw [hsome] at hm
      have hi := generate_metro_route_inv hm
      exact ⟨(find_nearest_metro_station_isSome g slat slon).mp hi.1,
        (find_nearest_metro_station_isSome g elat elon).mp hi.2.1⟩
    · have hf : has_segment_type
          (generate_green_route g slat slon elat elon) "metro" = false := rfl
      rw [hf] at hmet
      exact Bool.noConfusion hmet
    · have hf := (generate_cycling_route_inv hcyc).1
      rw [hf] at hmet
      exact Bool.noConfusion hmet
    · have hf : has_segment_type
          (generate_walking_route g slat slon elat elon) "metro" = false := rfl
      rw [hf] at hmet
      exact Bool.noConfusion hmet
  · rintro ⟨he1, he2⟩
    have hi1 := (find_nearest_metro_station_isSome g slat slon).mpr he1
    have hi2 := (find_nearest_metro_station_isSome g elat elon).mpr he2
    obtain ⟨m, hmm⟩ := metro_route_of_eligible hi1 hi2 hne
    have hms : mopt = some m := by
      rw [hm] at hmm
      exact Except.ok.inj hmm
    refine ⟨m, hperm.mem_iff.mpr (mem_candidate_routes.mpr (Or.inr (Or.inl hms))), ?_⟩
    exact (generate_metro_route_inv hmm).2.2.1
  · intro hd r hr
    rcases mem_candidate_routes.mp (hperm.mem_iff.mp hr) with
      rfl | hsome | rfl | hcyc | ⟨hlt, rfl⟩
    · exact rfl
    · rw [hsome] at hm
      exact (generate_metro_route_inv hm).2.2.2.1
    · exact rfl
    · rw [cycling_route_none_of_far hd] at hcyc
      exact Option.noConfusion hcyc
    · exact rfl
  · rintro ⟨r, hr, hwalk⟩
    rcases mem_candidate_routes.mp (hperm.mem_iff.mp hr) with
      rfl | hsome | rfl | hcyc | ⟨hlt, rfl⟩
    · have hf : (generate_direct_route g hour draws slat slon elat elon).segments.all
          (fun s => decide (s.route_type = "walking")) = false := rfl
      rw [hf] at hwalk
      exact Bool.noConfusion hwalk
    · rw [hsome] at hm
      have hf := (generate_metro_route_inv hm).2.2.2.2.1
      rw [hf] at hwalk
      exact Bool.noConfusion hwalk
    · have hf : (generate_green_route g slat slon elat elon).segments.all
          (fun s => decide (s.route_type = "walking")) = false := rfl
      rw [hf] at hwalk
      exact Bool.noConfusion hwalk
    · have hf := (generate_cycling_route_inv hcyc).2.2.1
      rw [hf] at hwalk
      exact Bool.noConfusion hwalk
    · exact hlt

set_option maxHeartbeats 1600000 in
/-- Claim C6 witness, applying `c6_route_eligibility` on a concrete successful
call with a metro route present. -/
theorem c6_witness :
    get_safe_routes gW2 12 d1111 0 0 9 9 "optimal" = .ok c6w_routes ∧
    (((∃ r ∈ c6w_routes, has_segment_type r "metro" = true) ↔
        ((∃ p ∈ metro_stations, gW2.dist 0 0 p.2.latitude p.2.longitude < 2) ∧
         (∃ p ∈ metro_stations, gW2.dist 9 9 p.2.latitude p.2.longitude < 2))) ∧
      (15 < gW2.dist 0 0 9 9 →
        ∀ r ∈ c6w_routes, has_segment_type r "cycling" = false) ∧
      ((∃ r ∈ c6w_routes, r.segments.all
          (fun s => decide (s.route_type = "walking")) = true) →
        gW2.dist 0 0 9 9 < 3)) := by
  have he : get_safe_routes gW2 12 d1111 0 0 9 9 "optimal" = .ok c6w_routes := by
    norm_num [get_safe_routes, candidate_routes, generate_direct_route, generate_metro_route,
      generate_green_route, generate_cycling_route, generate_walking_route,
      find_nearest_metro_station, metro_scan_step, metro_stations, pyInt, chain_le_by,
      Except.map,
      get_hyperlocal_aqi, find_nearby_stations, monitoring_stations, stable_sort,
      insertS, interpolate_aqi, add_weighted, calculate_micro_environmental_factors,
      time_of_day_factor, adjust_aqi_for_local_factors, combined_factor, pyRound,
      roundHalfEven, get_aqi_category, get_health_recommendations, get_city_average_aqi,
      gW2, d1111, c6w_routes, c8w_metro, List.cons_ne_nil]
  exact ⟨he, c6_route_eligibility he⟩

end Hyperlocal
